import Mathlib

/-!
Verification of the assert package (a Go assertion-helper library) against
its specification.  The Go code is shallowly embedded: runtime values that
callers pass as empty-interface operands are modelled by the inductive type
GoVal together with Option (none models the untyped nil interface, the
"absence of value").  The reflection facilities the code relies on
(reflect.DeepEqual, Kind, Type, IsValid, IsNil, Len) are modelled as
recursive Lean functions over this value model, following the documented
semantics of the Go reflect package.  Reporting through the Tester
collaborator is modelled by returning the list of reporting calls an
invocation performs.
-/

namespace Assert

/-- Model of reflect.Kind, restricted to the kinds the value model can
exhibit plus the kinds named by the source (interface never occurs at the
top level of an operand, but the classifier in the source lists it). -/
inductive GoKind where
  | invalid
  | bool
  | int
  | string
  | array
  | chan
  | func
  | interface
  | map
  | ptr
  | slice
  | struct
deriving DecidableEq

/-- Model of reflect.Type: the dynamic type of a Go value.  Function types
are identified by a signature tag, struct types by their name. -/
inductive GoType where
  | tInt
  | tBool
  | tString
  | tPtr (t : GoType)
  | tSlice (t : GoType)
  | tMap (k v : GoType)
  | tChan (t : GoType)
  | tFunc (sig : Nat)
  | tArray (n : Nat) (t : GoType)
  | tStruct (name : String)
deriving DecidableEq

mutual
/-- Model of a typed Go runtime value.  Reference values (pointers, slices,
maps, channels) carry a numeric identity standing for their address, which
the Go equality shortcuts compare; the Nil-suffixed constructors are the
typed nil values of the nilable kinds.  A non-nil function value carries
only its signature tag, since Go deep equality never inspects function
bodies. -/
inductive GoVal where
  | vInt (n : Int)
  | vBool (b : Bool)
  | vString (s : String)
  | vPtrNil (pointee : GoType)
  | vPtr (pointee : GoType) (id : Nat) (target : GoVal)
  | vSliceNil (elem : GoType)
  | vSlice (elem : GoType) (id : Nat) (elems : GoValList)
  | vMapNil (key val : GoType)
  | vMap (key val : GoType) (id : Nat) (entries : GoEntryList)
  | vChanNil (elem : GoType)
  | vChan (elem : GoType) (id : Nat) (buffered : Nat)
  | vFuncNil (sig : Nat)
  | vFunc (sig : Nat)
  | vArray (elem : GoType) (elems : GoValList)
  | vStruct (name : String) (fields : GoValList)

/-- A list of Go values (slice elements, array elements, struct fields). -/
inductive GoValList where
  | nil
  | cons (v : GoVal) (rest : GoValList)

/-- The entries of a Go map, as key-value pairs. -/
inductive GoEntryList where
  | enil
  | econs (k v : GoVal) (rest : GoEntryList)
end

/-- Number of elements of a value list. -/
def lenL : GoValList → Nat
  | .nil => 0
  | .cons _ rest => lenL rest + 1

/-- Number of entries of a map entry list. -/
def lenE : GoEntryList → Nat
  | .enil => 0
  | .econs _ _ rest => lenE rest + 1

/-- Model of reflect.Value.Type on a valid value. -/
def typeOf : GoVal → GoType
  | .vInt _ => .tInt
  | .vBool _ => .tBool
  | .vString _ => .tString
  | .vPtrNil t => .tPtr t
  | .vPtr t _ _ => .tPtr t
  | .vSliceNil t => .tSlice t
  | .vSlice t _ _ => .tSlice t
  | .vMapNil k v => .tMap k v
  | .vMap k v _ _ => .tMap k v
  | .vChanNil t => .tChan t
  | .vChan t _ _ => .tChan t
  | .vFuncNil s => .tFunc s
  | .vFunc s => .tFunc s
  | .vArray t l => .tArray (lenL l) t
  | .vStruct n _ => .tStruct n

/-- Model of reflect.Value.Kind on a valid value. -/
def goKind : GoVal → GoKind
  | .vInt _ => .int
  | .vBool _ => .bool
  | .vString _ => .string
  | .vPtrNil _ => .ptr
  | .vPtr _ _ _ => .ptr
  | .vSliceNil _ => .slice
  | .vSlice _ _ _ => .slice
  | .vMapNil _ _ => .map
  | .vMap _ _ _ _ => .map
  | .vChanNil _ => .chan
  | .vChan _ _ _ => .chan
  | .vFuncNil _ => .func
  | .vFunc _ => .func
  | .vArray _ _ => .array
  | .vStruct _ _ => .struct

/-- Model of reflect.Value.IsNil on a valid value of nilable kind. -/
def isNilV : GoVal → Bool
  | .vPtrNil _ => true
  | .vSliceNil _ => true
  | .vMapNil _ _ => true
  | .vChanNil _ => true
  | .vFuncNil _ => true
  | _ => false

/-- Model of reflect.Value.Len on a valid value of a kind that has a
length (string length counts bytes, as the Go built-in len does; the
length of a nil slice, map or channel is zero). -/
def lenV : GoVal → Nat
  | .vString s => s.utf8ByteSize
  | .vSliceNil _ => 0
  | .vSlice _ _ l => lenL l
  | .vMapNil _ _ => 0
  | .vMap _ _ _ e => lenE e
  | .vChanNil _ => 0
  | .vChan _ _ n => n
  | .vArray _ l => lenL l
  | _ => 0

mutual
/-- Model of the Go operator == on values of comparable kinds, as used by
map-key lookup inside reflect.DeepEqual: structural on primitives, arrays
and structs, identity on pointers and channels, false (unreachable for
valid map keys) on non-comparable kinds. -/
def keyEq : GoVal → GoVal → Bool
  | .vInt a, .vInt b => a == b
  | .vBool a, .vBool b => a == b
  | .vString a, .vString b => a == b
  | .vPtrNil t1, .vPtrNil t2 => t1 == t2
  | .vPtr t1 i1 _, .vPtr t2 i2 _ => t1 == t2 && i1 == i2
  | .vChanNil t1, .vChanNil t2 => t1 == t2
  | .vChan t1 i1 _, .vChan t2 i2 _ => t1 == t2 && i1 == i2
  | .vArray t1 l1, .vArray t2 l2 => t1 == t2 && keyEqList l1 l2
  | .vStruct n1 f1, .vStruct n2 f2 => n1 == n2 && keyEqList f1 f2
  | _, _ => false

/-- Pointwise extension of keyEq to value lists. -/
def keyEqList : GoValList → GoValList → Bool
  | .nil, .nil => true
  | .cons a as, .cons b bs => keyEq a b && keyEqList as bs
  | _, _ => false
end

/-- Looks a key up in a map entry list using the Go key equality. -/
def lookupEntry (k : GoVal) : GoEntryList → Option GoVal
  | .enil => none
  | .econs k2 v2 rest => if keyEq k k2 then some v2 else lookupEntry k rest

mutual
/-- Model of the recursive worker of reflect.DeepEqual on two valid values,
following the documented semantics of the reflect package: values of
distinct types are never deeply equal; pointers are deeply equal when
identical or when their targets are; slices must agree on nilness and
length and are deeply equal when they share a base or elementwise; maps
must agree on nilness and length and are deeply equal when identical or
when every key maps to deeply equal values; channels compare by identity;
function values are deeply equal only when both are nil; arrays and structs
compare elementwise and fieldwise. -/
def deepEqual : GoVal → GoVal → Bool
  | .vInt a, .vInt b => a == b
  | .vBool a, .vBool b => a == b
  | .vString a, .vString b => a == b
  | .vPtrNil t1, .vPtrNil t2 => t1 == t2
  | .vPtr t1 i1 x1, .vPtr t2 i2 x2 => t1 == t2 && (i1 == i2 || deepEqual x1 x2)
  | .vSliceNil t1, .vSliceNil t2 => t1 == t2
  | .vSlice t1 i1 l1, .vSlice t2 i2 l2 =>
      t1 == t2 && lenL l1 == lenL l2 && (i1 == i2 || deepEqualList l1 l2)
  | .vMapNil k1 w1, .vMapNil k2 w2 => k1 == k2 && w1 == w2
  | .vMap k1 w1 i1 e1, .vMap k2 w2 i2 e2 =>
      k1 == k2 && w1 == w2 && lenE e1 == lenE e2 && (i1 == i2 || deepEqualSubmap e1 e2)
  | .vChanNil t1, .vChanNil t2 => t1 == t2
  | .vChan t1 i1 _, .vChan t2 i2 _ => t1 == t2 && i1 == i2
  | .vFuncNil s1, .vFuncNil s2 => s1 == s2
  | .vArray t1 l1, .vArray t2 l2 => t1 == t2 && lenL l1 == lenL l2 && deepEqualList l1 l2
  | .vStruct n1 f1, .vStruct n2 f2 => n1 == n2 && deepEqualList f1 f2
  | _, _ => false

/-- Pointwise extension of the deep-equality worker to value lists. -/
def deepEqualList : GoValList → GoValList → Bool
  | .nil, .nil => true
  | .cons a as, .cons b bs => deepEqual a b && deepEqualList as bs
  | _, _ => false

/-- Every entry of the first map has a matching key in the second whose
value is deeply equal. -/
def deepEqualSubmap : GoEntryList → GoEntryList → Bool
  | .enil, _ => true
  | .econs k v rest, m2 =>
      (match lookupEntry k m2 with
       | some v2 => deepEqual v v2
       | none => false) && deepEqualSubmap rest m2
end

/-- An operand as the Go code receives it: a value of type interface\x7b\x7d.
none models the untyped nil interface; reflect.ValueOf then yields the
invalid Value, modelled by mapping none to kind invalid below. -/
def Operand : Type := Option GoVal

/-- Model of reflect.Value.Kind, where the invalid value (obtained from
the untyped nil operand) has kind invalid. -/
def rKind : Option GoVal → GoKind
  | none => .invalid
  | some v => goKind v

/-- Model of reflect.Value.IsValid. -/
def rIsValid (v : Option GoVal) : Bool := v.isSome

/-- Model of reflect.Value.IsNil, used by the source only after checking
validity and nilability. -/
def rIsNil : Option GoVal → Bool
  | none => false
  | some v => isNilV v

/-- Model of reflect.TypeOf, and of reflect.Value.Type on valid values:
the untyped nil operand has no dynamic type. -/
def rTypeOf : Option GoVal → Option GoType
  | none => none
  | some v => some (typeOf v)

/-- Model of reflect.Value.Len for the kinds the Len check accepts. -/
def rLen : Option GoVal → Nat
  | none => 0
  | some v => lenV v

/-- Model of reflect.DeepEqual on two interface values: a nil operand is
deeply equal only to a nil operand, and two valid operands are compared by
the recursive worker. -/
def DeepEqual : Option GoVal → Option GoVal → Bool
  | none, none => true
  | some a, some b => deepEqual a b
  | _, _ => false

/-- isNilable returns if the kind of v can be nil or not.  It returns true
for invalid values or if the kind is chan, func, interface, map, pointer,
or slice; it returns false for the rest. -/
def isNilable (v : Option GoVal) : Bool :=
  match rKind v with
  | .invalid | .chan | .func | .map | .ptr | .interface | .slice => true
  | _ => false

/-- An argument of type interface\x7b\x7d handed to the message machinery:
either a plain string, an operand interpolated into a message, an integer,
a kind name, or the result of fmt.Sprintf kept symbolically as the format
string together with its arguments (with no arguments, Go Sprintf returns
the format string unchanged). -/
inductive GoAny where
  | str (s : String)
  | op (v : Option GoVal)
  | int (n : Int)
  | kind (k : GoKind)
  | formatted (format : String) (args : List GoAny)

/-- A reporting call made on the Tester collaborator: Errorf is the
non-fatal path, Fatalf the fatal path.  Each carries the argument list
that reached it (the source passes it through fmt.Sprintln). -/
inductive Report where
  | errorf (msg : List GoAny)
  | fatalf (msg : List GoAny)

/-- Model of reportError: copies the message arguments and calls the
non-fatal Errorf path of the Tester. -/
def reportError (msg : List GoAny) : Report := .errorf msg

/-- Model of the message helper: a non-empty override argument list is
returned unchanged; otherwise the default format is rendered by
fmt.Sprintf (kept symbolic) and wrapped as a single-element list. -/
def message (msg : List GoAny) (format : String) (a : List GoAny) : List GoAny :=
  if msg.length > 0 then msg
  else [GoAny.formatted format a]

/-- The nilable-mismatch carve-out shared textually by Equals and
NotEquals in the source: both operands are of nilable kind, and the
three-case switch applies, namely a typed nil-like value meets the
untyped absence-of-value (in either order) or both operands are valid,
of the same concrete type, and nil-like. -/
def nilMismatchCarveOut (v1 v2 : Option GoVal) : Bool :=
  isNilable v1 && isNilable v2 &&
    ((rIsValid v1 && !rIsValid v2 && rIsNil v1) ||
     (!rIsValid v1 && rIsValid v2 && rIsNil v2) ||
     (rIsValid v1 && rIsValid v2 &&
      rTypeOf v1 == rTypeOf v2 && rIsNil v1 && rIsNil v2))

/-- Model of Equals: first reflect.DeepEqual, then, when both operands are
nilable, the three-case switch reconciling typed nil with untyped nil;
otherwise report via the non-fatal path and return false. -/
def Equals (expected actual : Option GoVal) (msg : List GoAny) : Bool × List Report :=
  if DeepEqual expected actual then
    (true, [])
  else if nilMismatchCarveOut expected actual then
    (true, [])
  else
    (false, [reportError (message msg "\x27%v\x27 and \x27%v\x27 are not equal"
      [GoAny.op expected, GoAny.op actual])])

/-- Model of NotEquals: when both operands are nilable, the same
three-case switch (whose cases fall through to one reporting body) makes
the check fail; then reflect.DeepEqual makes it fail; otherwise true. -/
def NotEquals (expected actual : Option GoVal) (msg : List GoAny) : Bool × List Report :=
  if nilMismatchCarveOut expected actual then
    (false, [reportError (message msg "\x27%v\x27 and \x27%v\x27 are equal"
      [GoAny.op expected, GoAny.op actual])])
  else if DeepEqual expected actual then
    (false, [reportError (message msg "\x27%v\x27 and \x27%v\x27 are equal"
      [GoAny.op expected, GoAny.op actual])])
  else
    (true, [])

/-- Model of Nil: the check holds when the operand is of nilable kind and
is either the invalid value or nil-like in content. -/
def Nil (value : Option GoVal) (msg : List GoAny) : Bool × List Report :=
  let ret := isNilable value && (!rIsValid value || rIsNil value)
  if !ret then
    (false, [reportError (message msg "nil expected and found \x27%v\x27" [GoAny.op value])])
  else
    (true, [])

/-- Model of NotNil: fails exactly when the operand is of nilable kind and
is the invalid value or nil-like in content; a non-nilable operand passes
without further inspection. -/
def NotNil (value : Option GoVal) (msg : List GoAny) : Bool × List Report :=
  if isNilable value then
    if !rIsValid value || rIsNil value then
      (false, [reportError (message msg "not nil expected and found \x27%v\x27"
        [GoAny.op value])])
    else
      (true, [])
  else
    (true, [])

/-- Model of Len: on the kinds that have a length, compare the length with
the expectation; on any other kind report that len does not apply. -/
def Len (expected : Int) (value : Option GoVal) (msg : List GoAny) : Bool × List Report :=
  match rKind value with
  | .array | .chan | .map | .slice | .string =>
    if (rLen value : Int) != expected then
      (false, [reportError (message msg "len \x27%d\x27 expected and found \x27%d\x27"
        [GoAny.int expected, GoAny.int (rLen value)])])
    else
      (true, [])
  | _ =>
    (false, [reportError (message msg
      "cannot apply built-in function len to \x27%s\x27 (%v)"
      [GoAny.kind (rKind value), GoAny.op value])])

/-- A zero-argument Go function as the Panic check observes it: it either
returns normally or terminates by panicking with a (non-nil) value that
recover then yields; this models the deferred recover region of the
source, under the Go semantics in which a recovered panic value is never
nil. -/
inductive FnBehaviour where
  | returns
  | panics (v : GoAny)

/-- Model of Panic: the deferred recovery region sets the result to true,
and when recover observes no panic (the function returned normally) it
reports via the non-fatal path and sets the result to false; a panic is
swallowed by the recovery and nothing is reported. -/
def Panic (f : FnBehaviour) (msg : List GoAny) : Bool × List Report :=
  match f with
  | .panics _ => (true, [])
  | .returns => (false, [reportError (message msg "function did not panic" [])])

/-- Model of Type: compares the dynamic types obtained by reflect.TypeOf,
which are absent for untyped nil operands. -/
def Type' (expected value : Option GoVal) (msg : List GoAny) : Bool × List Report :=
  let te := rTypeOf expected
  let tv := rTypeOf value
  if te == tv then
    (true, [])
  else
    (false, [reportError (message msg "type \x27%T\x27 expected and found \x27%T\x27"
      [GoAny.op expected, GoAny.op value])])

/-- Model of FatalError: a nil error makes no reporting call; a present
error goes to the fatal Fatalf path of the Tester.  The Go function
returns nothing, so the model returns only the reporting calls. -/
def FatalError (err : Option GoVal) (msg : List GoAny) : List Report :=
  match err with
  | some e => [Report.fatalf (message msg "error \x27%s\x27 not expected" [GoAny.op (some e)])]
  | none => []

/-- The kinds the Len check accepts as having a length. -/
def hasLenKind : GoKind → Bool
  | .array | .chan | .map | .slice | .string => true
  | _ => false

mutual
/-- A value contains no non-nil function value in a position that Go deep
equality compares structurally: non-nil functions themselves, and array
elements and struct fields, are such positions, while the contents of
pointers, slices, maps and channels are shielded by the identity
shortcuts when a value is compared with itself. -/
def funcFree : GoVal → Bool
  | .vFunc _ => false
  | .vArray _ l => funcFreeList l
  | .vStruct _ l => funcFreeList l
  | _ => true

/-- Every member of the list is funcFree. -/
def funcFreeList : GoValList → Bool
  | .nil => true
  | .cons v rest => funcFree v && funcFreeList rest
end

/-- An operand that is untyped nil or whose value is funcFree. -/
def operandFuncFree : Option GoVal → Bool
  | none => true
  | some v => funcFree v

theorem equals_fst (a b : Option GoVal) (msg : List GoAny) :
    (Equals a b msg).fst = (DeepEqual a b || nilMismatchCarveOut a b) := by
  unfold Equals
  cases h1 : DeepEqual a b <;> cases h2 : nilMismatchCarveOut a b <;> simp [h1, h2]

theorem equals_snd_length (a b : Option GoVal) (msg : List GoAny) :
    (Equals a b msg).snd.length = (if (Equals a b msg).fst then 0 else 1) := by
  unfold Equals
  cases h1 : DeepEqual a b <;> cases h2 : nilMismatchCarveOut a b <;> simp [h1, h2]

theorem notEquals_fst (a b : Option GoVal) (msg : List GoAny) :
    (NotEquals a b msg).fst = (!nilMismatchCarveOut a b && !DeepEqual a b) := by
  unfold NotEquals
  cases h1 : nilMismatchCarveOut a b <;> cases h2 : DeepEqual a b <;> simp [h1, h2]

theorem nil_fst (v : Option GoVal) (msg : List GoAny) :
    (Nil v msg).fst = (isNilable v && (!rIsValid v || rIsNil v)) := by
  unfold Nil
  cases h : (isNilable v && (!rIsValid v || rIsNil v)) <;> simp [h]

theorem notNil_fst (v : Option GoVal) (msg : List GoAny) :
    (NotNil v msg).fst = !(isNilable v && (!rIsValid v || rIsNil v)) := by
  unfold NotNil
  cases h1 : isNilable v <;> cases h2 : rIsValid v <;> cases h3 : rIsNil v <;>
    simp [h1, h2, h3]

mutual
theorem deepEqual_refl : ∀ v : GoVal, funcFree v = true → deepEqual v v = true
  | .vInt a, _ => by
      rw [show deepEqual (.vInt a) (.vInt a) = (a == a) from rfl]; simp
  | .vBool a, _ => by
      rw [show deepEqual (.vBool a) (.vBool a) = (a == a) from rfl]; simp
  | .vString a, _ => by
      rw [show deepEqual (.vString a) (.vString a) = (a == a) from rfl]; simp
  | .vPtrNil t, _ => by
      rw [show deepEqual (.vPtrNil t) (.vPtrNil t) = (t == t) from rfl]; simp
  | .vPtr t i x, _ => by
      rw [show deepEqual (.vPtr t i x) (.vPtr t i x)
            = (t == t && (i == i || deepEqual x x)) from rfl]
      simp
  | .vSliceNil t, _ => by
      rw [show deepEqual (.vSliceNil t) (.vSliceNil t) = (t == t) from rfl]; simp
  | .vSlice t i l, _ => by
      rw [show deepEqual (.vSlice t i l) (.vSlice t i l)
            = (t == t && lenL l == lenL l && (i == i || deepEqualList l l)) from rfl]
      simp
  | .vMapNil k w, _ => by
      rw [show deepEqual (.vMapNil k w) (.vMapNil k w) = (k == k && w == w) from rfl]; simp
  | .vMap k w i e, _ => by
      rw [show deepEqual (.vMap k w i e) (.vMap k w i e)
            = (k == k && w == w && lenE e == lenE e && (i == i || deepEqualSubmap e e))
          from rfl]
      simp
  | .vChanNil t, _ => by
      rw [show deepEqual (.vChanNil t) (.vChanNil t) = (t == t) from rfl]; simp
  | .vChan t i n, _ => by
      rw [show deepEqual (.vChan t i n) (.vChan t i n) = (t == t && i == i) from rfl]; simp
  | .vFuncNil s, _ => by
      rw [show deepEqual (.vFuncNil s) (.vFuncNil s) = (s == s) from rfl]; simp
  | .vArray t l, h => by
      rw [show deepEqual (.vArray t l) (.vArray t l)
            = (t == t && lenL l == lenL l && deepEqualList l l) from rfl]
      rw [deepEqualList_refl l (by rw [show funcFree (.vArray t l) = funcFreeList l from rfl] at h; exact h)]
      simp
  | .vStruct n f, h => by
      rw [show deepEqual (.vStruct n f) (.vStruct n f) = (n == n && deepEqualList f f) from rfl]
      rw [deepEqualList_refl f (by rw [show funcFree (.vStruct n f) = funcFreeList f from rfl] at h; exact h)]
      simp

theorem deepEqualList_refl : ∀ l : GoValList, funcFreeList l = true → deepEqualList l l = true
  | .nil, _ => rfl
  | .cons v rest, h => by
      have h2 : (funcFree v && funcFreeList rest) = true := h
      rw [show deepEqualList (.cons v rest) (.cons v rest)
            = (deepEqual v v && deepEqualList rest rest) from rfl]
      rw [deepEqual_refl v (Bool.and_elim_left h2),
          deepEqualList_refl rest (Bool.and_elim_right h2)]
      rfl
end

theorem deepEqualOp_refl (v : Option GoVal) (h : operandFuncFree v = true) :
    DeepEqual v v = true := by
  cases v with
  | none => rfl
  | some x => exact deepEqual_refl x h

theorem nil_snd_length (v : Option GoVal) (msg : List GoAny) :
    (Nil v msg).snd.length = (if (Nil v msg).fst then 0 else 1) := by
  unfold Nil
  cases h : (isNilable v && (!rIsValid v || rIsNil v)) <;> simp [h]

/-- The fatal reporting path was taken. -/
def isFatalReport : Report → Bool
  | .fatalf _ => true
  | .errorf _ => false

/-- C1: for every pair of operands, Equals returns true with no report
exactly when deep structural equality holds or the nilable-mismatch
carve-out applies (both operands of nilable kind, and either a typed
nil-like value meets the untyped absence-of-value in either order, or
both are valid, of the same concrete type, and nil-like); in particular a
typed nil pointer equals untyped nil, while two nil pointers of different
concrete pointee types are not equivalent. -/
theorem C1_equals_equivalence :
    (∀ a b msg, (Equals a b msg).fst = (DeepEqual a b || nilMismatchCarveOut a b)
      ∧ (Equals a b msg).snd.length = (if (Equals a b msg).fst then 0 else 1))
    ∧ Equals (some (.vPtrNil .tInt)) none [] = (true, [])
    ∧ (Equals (some (.vPtrNil .tInt)) (some (.vPtrNil .tString)) []).fst = false :=
  ⟨fun a b msg => ⟨equals_fst a b msg, equals_snd_length a b msg⟩, rfl, rfl⟩

/-- C2 counterexample: a non-nil function value is an acyclic operand, yet
Equals applied to it twice returns false, because deep equality never
equates non-nil function values and the nil carve-out does not apply. -/
theorem C2_reflexivity_counterexample :
    (Equals (some (.vFunc 0)) (some (.vFunc 0)) []).fst = false := rfl

/-- C2 amended: Equals(t, v, v) returns true for every acyclic operand v
that contains no non-nil function value in a structurally compared
position (in particular for every operand free of non-nil function
values). -/
theorem C2_reflexivity_amended :
    ∀ (v : Option GoVal) (msg : List GoAny), operandFuncFree v = true →
      (Equals v v msg).fst = true := by
  intro v msg h
  rw [equals_fst, deepEqualOp_refl v h]
  rfl

/-- C2 amended, witness: a struct of two integers is funcFree and Equals
applied to it twice returns true. -/
theorem C2_reflexivity_amended_witness :
    operandFuncFree (some (.vStruct "point" (.cons (.vInt 3) (.cons (.vInt 4) .nil)))) = true
    ∧ (Equals (some (.vStruct "point" (.cons (.vInt 3) (.cons (.vInt 4) .nil))))
        (some (.vStruct "point" (.cons (.vInt 3) (.cons (.vInt 4) .nil)))) []).fst = true :=
  ⟨rfl, C2_reflexivity_amended _ [] rfl⟩

/-- C3: whenever the nilable-mismatch carve-out applies to neither
evaluation, Equals returns the negation of NotEquals. -/
theorem C3_equals_notEquals_complement :
    ∀ (a b : Option GoVal) (msg : List GoAny), nilMismatchCarveOut a b = false →
      (Equals a b msg).fst = !(NotEquals a b msg).fst := by
  intro a b msg h
  rw [equals_fst, notEquals_fst, h]
  cases DeepEqual a b <;> rfl

/-- C3 witness: two distinct integers take the carve-out in neither
check, and there Equals is the negation of NotEquals. -/
theorem C3_equals_notEquals_complement_witness :
    nilMismatchCarveOut (some (.vInt 0)) (some (.vInt 1)) = false
    ∧ (Equals (some (.vInt 0)) (some (.vInt 1)) []).fst
        = !(NotEquals (some (.vInt 0)) (some (.vInt 1)) []).fst :=
  ⟨rfl, C3_equals_notEquals_complement _ _ [] rfl⟩

/-- C4: Nil returns true exactly when the operand is of nilable kind and
either carries no type information or is nil-like in content, reporting
once via the non-fatal path otherwise; in particular the concrete integer
zero fails the check with a report. -/
theorem C4_nil_check :
    (∀ v msg, (Nil v msg).fst = (isNilable v && (!rIsValid v || rIsNil v))
      ∧ (Nil v msg).snd.length = (if (Nil v msg).fst then 0 else 1))
    ∧ (Nil (some (.vInt 0)) []).fst = false
    ∧ (Nil (some (.vInt 0)) []).snd.length = 1 :=
  ⟨fun v msg => ⟨nil_fst v msg, nil_snd_length v msg⟩, rfl, rfl⟩

/-- C5: a panicking function makes Panic swallow the abnormal termination
and return true with no report; a normally returning function makes Panic
return false with exactly one non-fatal report, whose message under the
default (empty) override is the formatted string function did not
panic. -/
theorem C5_panic_capture :
    (∀ pv msg, Panic (.panics pv) msg = (true, []))
    ∧ (∀ msg, (Panic .returns msg).fst = false
        ∧ (Panic .returns msg).snd
            = [Report.errorf (message msg "function did not panic" [])])
    ∧ Panic .returns [] = (false, [Report.errorf [GoAny.formatted "function did not panic" []]]) :=
  ⟨fun _ _ => rfl, fun _ => ⟨rfl, rfl⟩, rfl⟩

/-- C6: on operands of kind array, chan, map, slice or string, Len
succeeds exactly when the length equals the expectation and reports once
on mismatch; on every other kind, including the untyped absence-of-value,
it reports the distinct cannot-apply-len failure and returns false. -/
theorem C6_len_check :
    ∀ (n : Int) (v : Option GoVal) (msg : List GoAny),
      (hasLenKind (rKind v) = true →
        ((Len n v msg).fst = ((rLen v : Int) == n)
          ∧ (Len n v msg).snd.length = (if (Len n v msg).fst then 0 else 1)))
      ∧ (hasLenKind (rKind v) = false →
          Len n v msg = (false, [reportError (message msg
            "cannot apply built-in function len to \x27%s\x27 (%v)"
            [GoAny.kind (rKind v), GoAny.op v])]))
      ∧ hasLenKind (rKind (none : Option GoVal)) = false := by
  intro n v msg
  refine ⟨?_, ?_, rfl⟩
  · intro h
    unfold Len
    cases hk : rKind v <;> simp [hasLenKind, hk] at h ⊢ <;>
      by_cases hc : ((rLen v : Int) = n) <;>
        simp [hc, beq_eq_false_iff_ne]
  · intro h
    unfold Len
    cases hk : rKind v <;> simp [hasLenKind, hk] at h ⊢

/-- C6 witness: a three-byte string has a length, which Len compares with
the expectation; the integer 1234 has none, and Len reports that len does
not apply. -/
theorem C6_len_check_witness :
    (hasLenKind (rKind (some (.vString "abc"))) = true
      ∧ (Len 3 (some (.vString "abc")) []).fst = ((rLen (some (.vString "abc")) : Int) == 3))
    ∧ (hasLenKind (rKind (some (.vInt 1234))) = false
      ∧ Len 0 (some (.vInt 1234)) [] = (false, [reportError (message []
          "cannot apply built-in function len to \x27%s\x27 (%v)"
          [GoAny.kind (rKind (some (.vInt 1234))), GoAny.op (some (.vInt 1234))])])) :=
  ⟨⟨rfl, ((C6_len_check 3 (some (.vString "abc")) []).1 rfl).1⟩,
   ⟨rfl, (C6_len_check 0 (some (.vInt 1234)) []).2.1 rfl⟩⟩

/-- C7: a non-empty override argument list is returned by the message
resolver unchanged, and an empty one yields the single-element list
holding the formatted default message. -/
theorem C7_message_resolver :
    ∀ (msg : List GoAny) (format : String) (a : List GoAny),
      (msg ≠ [] → message msg format a = msg)
      ∧ (msg = [] → message msg format a = [GoAny.formatted format a]) := by
  intro msg format a
  constructor
  · intro h
    unfold message
    simp [List.length_pos.mpr h]
  · intro h
    subst h
    rfl

/-- C7 witness: a one-element override suppresses the default message
entirely, and the empty override synthesizes the formatted default. -/
theorem C7_message_resolver_witness :
    (([GoAny.str "custom"] : List GoAny) ≠ []
      ∧ message [GoAny.str "custom"] "default" [] = [GoAny.str "custom"])
    ∧ message [] "default" [] = [GoAny.formatted "default" []] :=
  ⟨⟨by simp, (C7_message_resolver [GoAny.str "custom"] "default" []).1 (by simp)⟩,
   (C7_message_resolver [] "default" []).2 rfl⟩

/-- C8: FatalError with an absent error makes no reporting call, and with
a present error makes exactly one reporting call, which takes the fatal
path and not the non-fatal one. -/
theorem C8_fatalError_paths :
    (∀ msg, FatalError none msg = [])
    ∧ (∀ e msg, FatalError (some e) msg
        = [Report.fatalf (message msg "error \x27%s\x27 not expected" [GoAny.op (some e)])]
      ∧ ((FatalError (some e) msg).filter (fun r => isFatalReport r)).length = 1
      ∧ ((FatalError (some e) msg).filter (fun r => !isFatalReport r)).length = 0) :=
  ⟨fun _ => rfl, fun _ _ => ⟨rfl, rfl, rfl⟩⟩

/-- C9: NotNil returns the exact negation of Nil on every operand. -/
theorem C9_notNil_complements_nil :
    ∀ (v : Option GoVal) (msg : List GoAny),
      (NotNil v msg).fst = !(Nil v msg).fst := by
  intro v msg
  rw [nil_fst, notNil_fst]

/-- C10: Type applied to two untyped absence-of-value operands returns
true and makes no reporting call, since both dynamic types are absent and
compare equal. -/
theorem C10_type_both_untyped_nil :
    ∀ msg, Type' none none msg = (true, []) := fun _ => rfl

end Assert
